import Mathlib

/-!
Shallow embedding of `src/spectrometer.py` (Quantum-Optics-LKB/LightField):
a settings-application facade over the PrincetonInstruments LightField
automation SDK. The vendor-side experiment/settings context is modelled as
an explicit state (a key/value settings list, a full-sensor region, the
experiment's name, and a log of the vendor calls performed on it); the
facade methods are translated as state-passing functions that also return
the list of messages the Python code prints.
-/

/-- The vendor-defined setting identifiers the script uses
(`SpectrometerSettings.*`, `CameraSettings.*`, `ExperimentSettings.*`). -/
inductive SettingKey where
  | GratingCenterWavelength
  | Grating
  | ShutterTimingExposureTime
  | FileNameGenerationBaseFileName
  | FileNameGenerationAttachIncrement
  | FileNameGenerationAttachDate
  | FileNameGenerationAttachTime
  | ReadoutControlRegionsOfInterestSelection
deriving DecidableEq

/-- Values the facade writes into the context: Python floats are modelled as
rationals, strings and booleans as themselves. -/
inductive SettingValue where
  | num (q : ℚ)
  | str (s : String)
  | bool (b : Bool)
deriving DecidableEq

/-- The settings store of the experiment context: a key/value association
list. -/
abbrev Settings := List (SettingKey × SettingValue)

/-- Lookup of a key in the settings store. -/
def Settings.getValue (s : Settings) (k : SettingKey) : Option SettingValue :=
  match s with
  | [] => none
  | (k2, v) :: rest => if k2 = k then some v else Settings.getValue rest k

/-- Membership of a key in the settings store; models the vendor's
`Experiment.Exists`. -/
def Settings.containsKey (s : Settings) (k : SettingKey) : Bool :=
  match s with
  | [] => false
  | (k2, _) :: rest => k2 = k || Settings.containsKey rest k

/-- Write of a value under a key: replaces the value when the key is present,
appends the pair otherwise. -/
def Settings.setKey (s : Settings) (k : SettingKey) (v : SettingValue) : Settings :=
  match s with
  | [] => [(k, v)]
  | (k2, v2) :: rest =>
      if k2 = k then (k2, v) :: rest else (k2, v2) :: Settings.setKey rest k v

/-- The vendor's `RegionOfInterest` value object, as constructed by
`RegionOfInterest(x, y, width, height, xbinning, ybinning)`. -/
structure RegionOfInterest where
  x : Int
  y : Int
  width : Int
  height : Int
  xBinning : Int
  yBinning : Int
deriving DecidableEq

/-- Vendor calls recorded on the experiment context's log. -/
inductive Event where
  | setValueEv (k : SettingKey) (v : SettingValue)
  | acquireEv
  | saveAsEv (nm : Option String)
deriving DecidableEq

/-- A Python exception, as far as the facade surfaces one. -/
inductive PyErr where
  | attributeError (s : String)
  | vendorError (s : String)
deriving DecidableEq

/-- Messages the facade prints. -/
inductive Msg where
  | setOk (k : SettingKey) (v : SettingValue)
  | setErr (k : SettingKey) (v : SettingValue)
  | launchSuccess (nm : Option String)
  | pyError (e : PyErr)
deriving DecidableEq

/-- The vendor experiment/settings context held in `self.experiment`:
its settings store, its full sensor region, its name (`get_Name`), and the
log of vendor calls performed on it. -/
structure Experiment where
  settings : Settings
  fullSensorRegion : RegionOfInterest
  name : String
  log : List Event
deriving DecidableEq

/-- Vendor `Experiment.Exists(setting)`. -/
def Experiment.Exists (ex : Experiment) (k : SettingKey) : Bool :=
  ex.settings.containsKey k

/-- Vendor `Experiment.SetValue(setting, value)`: writes the value and logs
the call. -/
def Experiment.SetValue (ex : Experiment) (k : SettingKey) (v : SettingValue) :
    Experiment :=
  { ex with settings := ex.settings.setKey k v, log := ex.log ++ [Event.setValueEv k v] }

/-- Vendor `Experiment.Acquire()`: logs the blocking acquisition call. -/
def Experiment.Acquire (ex : Experiment) : Experiment :=
  { ex with log := ex.log ++ [Event.acquireEv] }

/-- Vendor `Experiment.SaveAs(name)`: logs the save call with the name it was
given. -/
def Experiment.SaveAs (ex : Experiment) (nm : Option String) : Experiment :=
  { ex with log := ex.log ++ [Event.saveAsEv nm] }

/-- `Spectrometer.set_value` (src/spectrometer.py:102-114): the single guarded
write path. Checks `self.experiment.Exists(setting)`; when present calls
`SetValue` and prints a success line, when absent prints an error line and
performs no write. -/
def set_value (ex : Experiment) (setting : SettingKey) (value : SettingValue) :
    Experiment × List Msg :=
  if ex.Exists setting then
    (ex.SetValue setting value, [Msg.setOk setting value])
  else
    (ex, [Msg.setErr setting value])

/-- `Spectrometer.set_center_wavelength` (src/spectrometer.py:60-67). -/
def set_center_wavelength (ex : Experiment) (center_wave_length : ℚ) :
    Experiment × List Msg :=
  set_value ex SettingKey.GratingCenterWavelength (SettingValue.num center_wave_length)

/-- `Spectrometer.set_grating` (src/spectrometer.py:69-89), transcribed with
the source's duplicated `grating == 0` branch (the `'[550nm,900][1][0]'`
descriptor is unreachable) and the silent fall-through for every other
code. -/
def set_grating (ex : Experiment) (grating : Int := 2) : Experiment × List Msg :=
  if grating = 0 then
    set_value ex SettingKey.Grating (SettingValue.str "[Mirror,1200][0][0]")
  else if grating = 0 then
    set_value ex SettingKey.Grating (SettingValue.str "[550nm,900][1][0]")
  else if grating = 2 then
    set_value ex SettingKey.Grating (SettingValue.str "[750nm,300][2][0]")
  else
    (ex, [])

/-- `Spectrometer.set_exposure_time` (src/spectrometer.py:116-122): forwards
`float(time)` through the guarded write. -/
def set_exposure_time (ex : Experiment) (time : ℚ) : Experiment × List Msg :=
  set_value ex SettingKey.ShutterTimingExposureTime (SettingValue.num time)

/-- A character .NET's `Path.GetFileName` treats as ending a path component:
the directory separator, the alternative separator, or the volume
separator. -/
def isPathSeparator (c : Char) : Bool :=
  c = '\\' || c = '/' || c = ':'

/-- Accumulator loop for `Path.GetFileName`: keeps the characters seen since
the last separator. -/
def getFileNameAux (acc : List Char) (l : List Char) : List Char :=
  match l with
  | [] => acc
  | c :: rest =>
      if isPathSeparator c then getFileNameAux [] rest
      else getFileNameAux (acc ++ [c]) rest

/-- .NET `Path.GetFileName(filename)`: the characters after the last path
separator. -/
def getFileName (s : String) : String :=
  String.mk (getFileNameAux [] s.toList)

/-- `Spectrometer.set_saved_filename` (src/spectrometer.py:124-149): four
separate guarded writes, in order base name (path stripped), increment flag,
date flag, time flag. -/
def set_saved_filename (ex : Experiment) (filename : String)
    (increment : Bool := false) (add_date : Bool := false)
    (add_time : Bool := false) : Experiment × List Msg :=
  let r1 := set_value ex SettingKey.FileNameGenerationBaseFileName
    (SettingValue.str (getFileName filename))
  let r2 := set_value r1.1 SettingKey.FileNameGenerationAttachIncrement
    (SettingValue.bool increment)
  let r3 := set_value r2.1 SettingKey.FileNameGenerationAttachDate
    (SettingValue.bool add_date)
  let r4 := set_value r3.1 SettingKey.FileNameGenerationAttachTime
    (SettingValue.bool add_time)
  (r4.1, r1.2 ++ r2.2 ++ r3.2 ++ r4.2)

/-- `Spectrometer.get_full_sensor_size` (src/spectrometer.py:151-162): reads
`self.experiment.FullSensorRegion` and returns its six fields in order. -/
def get_full_sensor_size (ex : Experiment) :
    Int × Int × Int × Int × Int × Int :=
  let dimensions := ex.fullSensorRegion
  (dimensions.x, dimensions.y, dimensions.width, dimensions.height,
   dimensions.xBinning, dimensions.yBinning)

/-- `Spectrometer.set_sensor_mode` (src/spectrometer.py:186-191): forwards
`float(mode)` (the integer coerced to a float, modelled as the cast into ℚ)
through the guarded write, with no range check. -/
def set_sensor_mode (ex : Experiment) (mode : Int := 4) : Experiment × List Msg :=
  set_value ex SettingKey.ReadoutControlRegionsOfInterestSelection
    (SettingValue.num (mode : ℚ))

/-- `Spectrometer.acquire` (src/spectrometer.py:193-199): sets the saved
filename with the default flag values, then calls `self.experiment.Acquire()`. -/
def acquire (ex : Experiment) (filename : String) : Experiment × List Msg :=
  let r := set_saved_filename ex filename
  (r.1.Acquire, r.2)

/-- The facade's own state: the four attributes `__init__` creates
(src/spectrometer.py:38-42). The automation session handle is modelled as an
opaque number. -/
structure Spectrometer where
  auto : Option Nat
  experiment : Option Experiment
  experiment_name : Option String
  ROI : Option RegionOfInterest
deriving DecidableEq

/-- The fallible vendor entry points `launch_experiment` calls: the
`Automation` constructor, the `LightFieldApplication.Experiment` property,
and `Experiment.Load`. Each may raise. -/
structure Vendor where
  automation : Bool → Except PyErr Nat
  getExperiment : Nat → Except PyErr Experiment
  load : Experiment → String → Except PyErr Experiment

/-- `Spectrometer.launch_experiment` (src/spectrometer.py:44-58): the vendor
calls run under a top-level try/except that prints the error; assignments
made before a failure are kept (no rollback). On a successful named load,
`self.experiment_name` is set from `self.experiment.get_Name()`, modelled as
the loaded experiment's `name` field. -/
def launch_experiment (sp : Spectrometer) (v : Vendor)
    (experiment : Option String := none) (interface : Bool := true) :
    Spectrometer × List Msg :=
  match v.automation interface with
  | Except.error err => (sp, [Msg.pyError err])
  | Except.ok a =>
    let sp1 := { sp with auto := some a }
    match v.getExperiment a with
    | Except.error err => (sp1, [Msg.pyError err])
    | Except.ok ex0 =>
      let sp2 := { sp1 with experiment := some ex0 }
      match experiment with
      | none => (sp2, [Msg.launchSuccess sp2.experiment_name])
      | some nm =>
        match v.load ex0 nm with
        | Except.error err => (sp2, [Msg.pyError err])
        | Except.ok ex1 =>
          let sp3 :=
            { sp2 with experiment := some ex1, experiment_name := some ex1.name }
          (sp3, [Msg.launchSuccess sp3.experiment_name])

/-- The region `set_custom_ROI` constructs (src/spectrometer.py:177-182):
binning arguments left as `None` default to the width and the height. -/
def customRegion (x y width height : Int)
    (xbinning ybinning : Option Int) : RegionOfInterest :=
  ⟨x, y, width, height, xbinning.getD width, ybinning.getD height⟩

/-- `Spectrometer.set_custom_ROI` (src/spectrometer.py:164-184): after
constructing the region, line 183 reads `self.Experiment` (capital E); the
class only ever assigns `self.experiment`, so the attribute lookup raises
`AttributeError` before `SetCustomRegions` runs and before the `return`. -/
def set_custom_ROI (_sp : Spectrometer) (x y width height : Int)
    (xbinning : Option Int := none) (ybinning : Option Int := none) :
    Except PyErr (Spectrometer × RegionOfInterest) :=
  let _regions := customRegion x y width height xbinning ybinning
  Except.error (PyErr.attributeError "Experiment")

/-- `Spectrometer.save_experiment` (src/spectrometer.py:201-209): a non-None
name is stored into `self.experiment_name` first; then
`self.experiment.SaveAs(self.experiment_name)` runs (an `AttributeError`
when no experiment is set, reported rather than modelled as propagation). -/
def save_experiment (sp : Spectrometer) (name : Option String := none) :
    Spectrometer × Option PyErr :=
  let sp1 := match name with
    | some n => { sp with experiment_name := some n }
    | none => sp
  match sp1.experiment with
  | some ex =>
      ({ sp1 with experiment := some (ex.SaveAs sp1.experiment_name) }, none)
  | none => (sp1, some (PyErr.attributeError "NoneType"))

/-! Concrete fixtures used by the witness theorems. -/

/-- The full sensor region of the spec's worked example. -/
def regionW : RegionOfInterest := ⟨0, 0, 1024, 1024, 1, 1⟩

/-- A context holding no settings at all. -/
def exEmpty : Experiment := ⟨[], regionW, "exp0", []⟩

/-- A context where the grating, base-filename and ROI-selection settings are
present and the others are absent. -/
def exW : Experiment :=
  ⟨[(SettingKey.Grating, SettingValue.str "[750nm,300][2][0]"),
    (SettingKey.FileNameGenerationBaseFileName, SettingValue.str "old"),
    (SettingKey.ReadoutControlRegionsOfInterestSelection, SettingValue.num 1)],
   regionW, "exp0", []⟩

/-- A freshly constructed facade (all attributes `None`). -/
def spW0 : Spectrometer := ⟨none, none, none, none⟩

/-- A facade after a successful launch. -/
def spW : Spectrometer := ⟨some 1, some exW, some "exp0", none⟩

/-- A vendor whose `Load` call raises. -/
def vendFail : Vendor :=
  ⟨fun _ => Except.ok 7, fun _ => Except.ok exW,
   fun _ _ => Except.error (PyErr.vendorError "load failed")⟩

/-! Helper lemmas shared by the claim theorems. -/

theorem Settings.getValue_setKey_self (s : Settings) (k : SettingKey)
    (v : SettingValue) : (s.setKey k v).getValue k = some v := by
  induction s with
  | nil => simp [Settings.setKey, Settings.getValue]
  | cons p rest ih =>
    obtain ⟨k2, v2⟩ := p
    by_cases h : k2 = k
    · subst h; simp [Settings.setKey, Settings.getValue]
    · simp [Settings.setKey, Settings.getValue, h, ih]

theorem Settings.getValue_setKey_ne (s : Settings) (k k2 : SettingKey)
    (v : SettingValue) (h : k2 ≠ k) :
    (s.setKey k v).getValue k2 = s.getValue k2 := by
  induction s with
  | nil => simp [Settings.setKey, Settings.getValue, Ne.symm h]
  | cons p rest ih =>
    obtain ⟨k3, v3⟩ := p
    by_cases h3 : k3 = k
    · subst h3
      simp [Settings.setKey, Settings.getValue, Ne.symm h]
    · simp [Settings.setKey, Settings.getValue, h3, ih]

theorem set_value_absent (ex : Experiment) (k : SettingKey) (v : SettingValue)
    (h : ex.Exists k = false) : set_value ex k v = (ex, [Msg.setErr k v]) := by
  simp [set_value, h]

theorem set_value_present (ex : Experiment) (k : SettingKey) (v : SettingValue)
    (h : ex.Exists k = true) :
    set_value ex k v = (ex.SetValue k v, [Msg.setOk k v]) := by
  simp [set_value, h]

theorem set_value_getValue_ne (ex : Experiment) (k k2 : SettingKey)
    (v : SettingValue) (h : k2 ≠ k) :
    ((set_value ex k v).1).settings.getValue k2 = ex.settings.getValue k2 := by
  by_cases he : ex.Exists k
  · simp [set_value, he, Experiment.SetValue, Settings.getValue_setKey_ne _ _ _ _ h]
  · simp [set_value, he]

theorem set_value_count_acquire (ex : Experiment) (k : SettingKey)
    (v : SettingValue) :
    ((set_value ex k v).1).log.count Event.acquireEv
      = ex.log.count Event.acquireEv := by
  by_cases he : ex.Exists k
  · simp [set_value, he, Experiment.SetValue]
  · simp [set_value, he]

/-- C1: the guarded write `set_value` checks existence of the key in the
current context; an absent key is reported as a failure with no write (the
whole state unchanged); a present key is updated to exactly the given value,
other keys are untouched, and a success is reported. -/
theorem set_value_C1 (ex : Experiment) (k : SettingKey) (v : SettingValue) :
    (ex.Exists k = false → set_value ex k v = (ex, [Msg.setErr k v]))
    ∧ (ex.Exists k = true →
        ((set_value ex k v).1).settings.getValue k = some v
        ∧ (∀ k2, k2 ≠ k →
            ((set_value ex k v).1).settings.getValue k2 = ex.settings.getValue k2)
        ∧ (set_value ex k v).2 = [Msg.setOk k v]) := by
  refine ⟨fun h => set_value_absent ex k v h, fun h => ⟨?_, ?_, ?_⟩⟩
  · simp [set_value_present ex k v h, Experiment.SetValue,
      Settings.getValue_setKey_self]
  · intro k2 h2
    exact set_value_getValue_ne ex k k2 v h2
  · simp [set_value_present ex k v h]

/-- Witness for C1 at a concrete context: the exposure-time key is absent in
`exW` (failure, no write), the grating key is present (value updated). -/
theorem set_value_C1_witness :
    set_value exW SettingKey.ShutterTimingExposureTime (SettingValue.str "t")
      = (exW, [Msg.setErr SettingKey.ShutterTimingExposureTime (SettingValue.str "t")])
    ∧ ((set_value exW SettingKey.Grating (SettingValue.str "g")).1).settings.getValue
        SettingKey.Grating = some (SettingValue.str "g") :=
  ⟨(set_value_C1 exW _ _).1 (by decide),
   ((set_value_C1 exW _ _).2 (by decide)).1⟩

/-- C2: the domain setters route through `set_value`: wavelength, exposure
and sensor mode are exactly a `set_value` application, and in a context where
no setting key exists, none of the setters (wavelength, grating, exposure,
filename flags, sensor mode) performs any write — every attempted write is
existence-checked. -/
theorem setters_C2 (ex : Experiment) (h : ∀ k, ex.Exists k = false) :
    (∀ wl, set_center_wavelength ex wl
        = set_value ex SettingKey.GratingCenterWavelength (SettingValue.num wl))
    ∧ (∀ t, set_exposure_time ex t
        = set_value ex SettingKey.ShutterTimingExposureTime (SettingValue.num t))
    ∧ (∀ m, set_sensor_mode ex m
        = set_value ex SettingKey.ReadoutControlRegionsOfInterestSelection
            (SettingValue.num (m : ℚ)))
    ∧ (∀ wl, (set_center_wavelength ex wl).1 = ex)
    ∧ (∀ g, (set_grating ex g).1 = ex)
    ∧ (∀ t, (set_exposure_time ex t).1 = ex)
    ∧ (∀ fn inc d t, (set_saved_filename ex fn inc d t).1 = ex)
    ∧ (∀ m, (set_sensor_mode ex m).1 = ex) := by
  have habs : ∀ k v, set_value ex k v = (ex, [Msg.setErr k v]) :=
    fun k v => set_value_absent ex k v (h k)
  refine ⟨fun wl => rfl, fun t => rfl, fun m => rfl,
    fun wl => ?_, fun g => ?_, fun t => ?_, fun fn inc d t => ?_, fun m => ?_⟩
  · simp [set_center_wavelength, habs]
  · by_cases g0 : g = 0
    · simp [set_grating, g0, habs]
    · by_cases g2 : g = 2
      · simp [set_grating, g0, g2, habs]
      · simp [set_grating, g0, g2]
  · simp [set_exposure_time, habs]
  · simp [set_saved_filename, habs]
  · simp [set_sensor_mode, habs]

/-- Witness for C2 on the empty context: the four-write filename setter
leaves the context unchanged since every key fails the existence check. -/
theorem setters_C2_witness :
    (set_saved_filename exEmpty "C:\\data\\run1.csv" true true false).1 = exEmpty :=
  (setters_C2 exEmpty (fun _ => rfl)).2.2.2.2.2.2.1 "C:\\data\\run1.csv" true true false

/-- C3: `set_grating` maps code 0 to the mirror descriptor and code 2 to the
750 nm descriptor, each through the guarded write; code 1 and every other
unrecognized code performs no write and raises no error. -/
theorem set_grating_C3 (ex : Experiment) (g : Int) :
    set_grating ex 0
      = set_value ex SettingKey.Grating (SettingValue.str "[Mirror,1200][0][0]")
    ∧ set_grating ex 2
      = set_value ex SettingKey.Grating (SettingValue.str "[750nm,300][2][0]")
    ∧ (g ≠ 0 → g ≠ 2 → set_grating ex g = (ex, [])) := by
  refine ⟨rfl, by simp [set_grating], fun h0 h2 => by simp [set_grating, h0, h2]⟩

/-- Witness for C3 at code 1: the silent no-op. -/
theorem set_grating_C3_witness : set_grating exW 1 = (exW, []) :=
  (set_grating_C3 exW 1).2.2 (by decide) (by decide)

theorem Settings.containsKey_setKey_ne (s : Settings) (k k2 : SettingKey)
    (v : SettingValue) (h : k2 ≠ k) :
    (s.setKey k v).containsKey k2 = s.containsKey k2 := by
  induction s with
  | nil => simp [Settings.setKey, Settings.containsKey, Ne.symm h]
  | cons p rest ih =>
    obtain ⟨k3, v3⟩ := p
    by_cases h3 : k3 = k
    · subst h3; simp [Settings.setKey, Settings.containsKey]
    · simp [Settings.setKey, Settings.containsKey, h3, ih]

theorem set_value_Exists_ne (ex : Experiment) (k k2 : SettingKey)
    (v : SettingValue) (h : k2 ≠ k) :
    ((set_value ex k v).1).Exists k2 = ex.Exists k2 := by
  cases he : ex.Exists k with
  | true =>
    rw [set_value_present _ _ _ he]
    simp [Experiment.SetValue, Experiment.Exists,
      Settings.containsKey_setKey_ne _ _ _ _ h]
  | false => rw [set_value_absent _ _ _ he]

theorem getFileNameAux_no_sep (l : List Char) :
    ∀ acc : List Char, acc.all (fun c => !isPathSeparator c) = true →
      (getFileNameAux acc l).all (fun c => !isPathSeparator c) = true := by
  induction l with
  | nil => intro acc h; simpa [getFileNameAux] using h
  | cons c rest ih =>
    intro acc h
    cases hc : isPathSeparator c with
    | false =>
      have h2 : (acc ++ [c]).all (fun x => !isPathSeparator x) = true := by
        simp [List.all_append, h, hc]
      simpa [getFileNameAux, hc] using ih (acc ++ [c]) h2
    | true => simpa [getFileNameAux, hc] using ih [] (by simp)

theorem getFileName_no_sep (s : String) :
    (getFileName s).toList.all (fun c => !isPathSeparator c) = true := by
  simpa [getFileName, String.toList] using getFileNameAux_no_sep s.toList [] (by simp)

/-- C5: `set_saved_filename` strips the path from the filename and performs
four separate guarded writes in order base name, increment, date, time, with
the flags passed through unchanged; the writes are not atomic — with the base
key present and the increment key absent, the base name is written while the
increment flag stays untouched. -/
theorem set_saved_filename_C5 (ex : Experiment) (filename : String)
    (inc d t : Bool) :
    (set_saved_filename ex filename inc d t =
      (let r1 := set_value ex SettingKey.FileNameGenerationBaseFileName
         (SettingValue.str (getFileName filename))
       let r2 := set_value r1.1 SettingKey.FileNameGenerationAttachIncrement
         (SettingValue.bool inc)
       let r3 := set_value r2.1 SettingKey.FileNameGenerationAttachDate
         (SettingValue.bool d)
       let r4 := set_value r3.1 SettingKey.FileNameGenerationAttachTime
         (SettingValue.bool t)
       (r4.1, r1.2 ++ r2.2 ++ r3.2 ++ r4.2)))
    ∧ (getFileName filename).toList.all (fun c => !isPathSeparator c) = true
    ∧ (ex.Exists SettingKey.FileNameGenerationBaseFileName = true →
       ex.Exists SettingKey.FileNameGenerationAttachIncrement = false →
       ((set_saved_filename ex filename inc d t).1).settings.getValue
           SettingKey.FileNameGenerationBaseFileName
         = some (SettingValue.str (getFileName filename))
       ∧ ((set_saved_filename ex filename inc d t).1).settings.getValue
           SettingKey.FileNameGenerationAttachIncrement
         = ex.settings.getValue SettingKey.FileNameGenerationAttachIncrement) := by
  refine ⟨rfl, getFileName_no_sep filename, fun h1 h2 => ?_⟩
  have hK1 : ((set_value ex SettingKey.FileNameGenerationBaseFileName
      (SettingValue.str (getFileName filename))).1).settings.getValue
      SettingKey.FileNameGenerationBaseFileName
      = some (SettingValue.str (getFileName filename)) := by
    simp [set_value_present _ _ _ h1, Experiment.SetValue,
      Settings.getValue_setKey_self]
  have hEx2 : ((set_value ex SettingKey.FileNameGenerationBaseFileName
      (SettingValue.str (getFileName filename))).1).Exists
      SettingKey.FileNameGenerationAttachIncrement = false := by
    rw [set_value_Exists_ne ex _ _ _ (by decide)]
    exact h2
  have hstep2 : (set_value ((set_value ex SettingKey.FileNameGenerationBaseFileName
      (SettingValue.str (getFileName filename))).1)
      SettingKey.FileNameGenerationAttachIncrement (SettingValue.bool inc)).1
      = (set_value ex SettingKey.FileNameGenerationBaseFileName
      (SettingValue.str (getFileName filename))).1 := by
    rw [set_value_absent _ _ _ hEx2]
  constructor
  · simp only [set_saved_filename]
    rw [set_value_getValue_ne _ _ _ _ (by decide),
        set_value_getValue_ne _ _ _ _ (by decide), hstep2, hK1]
  · simp only [set_saved_filename]
    rw [set_value_getValue_ne _ _ _ _ (by decide),
        set_value_getValue_ne _ _ _ _ (by decide), hstep2,
        set_value_getValue_ne _ _ _ _ (by decide)]

/-- Witness for C5: a Windows path is stripped to its base name, and with the
base key present but the increment key absent in `exW`, the two writes end in
the mixed configuration the claim describes. -/
theorem set_saved_filename_C5_witness :
    ((set_saved_filename exW "C:\\data\\run1.csv" false false false).1).settings.getValue
        SettingKey.FileNameGenerationBaseFileName
      = some (SettingValue.str (getFileName "C:\\data\\run1.csv"))
    ∧ ((set_saved_filename exW "C:\\data\\run1.csv" false false false).1).settings.getValue
        SettingKey.FileNameGenerationAttachIncrement
      = exW.settings.getValue SettingKey.FileNameGenerationAttachIncrement
    ∧ getFileName "C:\\data\\run1.csv" = "run1.csv" :=
  ⟨((set_saved_filename_C5 exW "C:\\data\\run1.csv" false false false).2.2
      rfl rfl).1,
   ((set_saved_filename_C5 exW "C:\\data\\run1.csv" false false false).2.2
      rfl rfl).2,
   by decide⟩

/-- C6: `acquire` runs the filename-setting path (with the default flag
values) exactly once and then the acquisition trigger exactly once: the
result is the `Acquire` vendor call applied to the state the filename writes
produced, the trigger event is appended after those writes, and the
filename-setting path itself adds no trigger event. -/
theorem acquire_C6 (ex : Experiment) (filename : String) :
    acquire ex filename
      = (((set_saved_filename ex filename false false false).1).Acquire,
         (set_saved_filename ex filename false false false).2)
    ∧ ((acquire ex filename).1).log
      = ((set_saved_filename ex filename false false false).1).log
        ++ [Event.acquireEv]
    ∧ ((set_saved_filename ex filename false false false).1).log.count Event.acquireEv
      = ex.log.count Event.acquireEv
    ∧ ((acquire ex filename).1).log.count Event.acquireEv
      = ex.log.count Event.acquireEv + 1 := by
  have hcount : ((set_saved_filename ex filename false false false).1).log.count
      Event.acquireEv = ex.log.count Event.acquireEv := by
    simp only [set_saved_filename]
    rw [set_value_count_acquire, set_value_count_acquire,
        set_value_count_acquire, set_value_count_acquire]
  refine ⟨rfl, rfl, hcount, ?_⟩
  have hlog : ((acquire ex filename).1).log
      = ((set_saved_filename ex filename false false false).1).log
        ++ [Event.acquireEv] := rfl
  rw [hlog, List.count_append, hcount]
  simp

/-- C8: `get_full_sensor_size` returns the six fields of the experiment's
full sensor region unchanged and in the order (x, y, width, height,
xBinning, yBinning); its type (no state is returned or threaded) reflects
that the query performs no mutation of the context. -/
theorem get_full_sensor_size_C8 (ex : Experiment) (x y w h xb yb : Int)
    (hr : ex.fullSensorRegion = ⟨x, y, w, h, xb, yb⟩) :
    get_full_sensor_size ex = (x, y, w, h, xb, yb) := by
  simp [get_full_sensor_size, hr]

/-- Witness for C8 at the spec's fake sensor region
(x=0, y=0, w=1024, h=1024, xb=1, yb=1). -/
theorem get_full_sensor_size_C8_witness :
    get_full_sensor_size exW = (0, 0, 1024, 1024, 1, 1) :=
  get_full_sensor_size_C8 exW 0 0 1024 1024 1 1 rfl

/-- C9: `save_experiment` modifies no facade field other than
`experiment_name`: with a non-None name it first stores that name and then
saves under it; with None it saves under the stored name and leaves every
facade field as it was (the experiment only gains the vendor `SaveAs`
call). -/
theorem save_experiment_C9 (sp : Spectrometer) (ex : Experiment) (n : String)
    (hex : sp.experiment = some ex) :
    ((save_experiment sp (some n)).1.experiment_name = some n
      ∧ (save_experiment sp (some n)).1.auto = sp.auto
      ∧ (save_experiment sp (some n)).1.ROI = sp.ROI
      ∧ (save_experiment sp (some n)).1.experiment = some (ex.SaveAs (some n)))
    ∧ (save_experiment sp none).1
      = { sp with experiment := some (ex.SaveAs sp.experiment_name) } := by
  constructor
  · refine ⟨?_, ?_, ?_, ?_⟩ <;> simp [save_experiment, hex]
  · simp [save_experiment, hex]

/-- Witness for C9 on a launched facade: a new name persists as the active
name, and a None name changes nothing but the saved experiment's log. -/
theorem save_experiment_C9_witness :
    (save_experiment spW (some "run7")).1.experiment_name = some "run7"
    ∧ (save_experiment spW none).1
      = { spW with experiment := some (exW.SaveAs spW.experiment_name) } :=
  ⟨(save_experiment_C9 spW exW "run7" rfl).1.1,
   (save_experiment_C9 spW exW "run7" rfl).2⟩

/-- C10: `set_sensor_mode` coerces the mode to a float (modelled as the cast
of the integer into ℚ) and forwards it through the guarded write with no
range validation: every mode, also outside 1..4, reaches the ROI-selection
setting unchanged whenever that setting exists. -/
theorem set_sensor_mode_C10 (ex : Experiment) (mode : Int) :
    set_sensor_mode ex mode
      = set_value ex SettingKey.ReadoutControlRegionsOfInterestSelection
          (SettingValue.num (mode : ℚ))
    ∧ (ex.Exists SettingKey.ReadoutControlRegionsOfInterestSelection = true →
        ((set_sensor_mode ex mode).1).settings.getValue
            SettingKey.ReadoutControlRegionsOfInterestSelection
          = some (SettingValue.num (mode : ℚ))) := by
  refine ⟨rfl, fun h => ?_⟩
  simp [set_sensor_mode, set_value_present _ _ _ h, Experiment.SetValue,
    Settings.getValue_setKey_self]

/-- Witness for C10 at the out-of-range mode 99: the value stored is the
float image of 99, with no rejection. -/
theorem set_sensor_mode_C10_witness :
    ((set_sensor_mode exW 99).1).settings.getValue
        SettingKey.ReadoutControlRegionsOfInterestSelection
      = some (SettingValue.num ((99 : Int) : ℚ)) :=
  (set_sensor_mode_C10 exW 99).2 rfl

/-- C7: whatever vendor step of `launch_experiment` raises, the exception is
caught and reported as a printed message and never propagates (the function
is total into a message list); no rollback happens — the assignments made
before the failure are kept, so the facade can end with the session set and
the experiment still None; and when a named preset loads successfully the
active experiment name is set to the loaded experiment's name
(`get_Name`). -/
theorem launch_experiment_C7 (sp : Spectrometer) (v : Vendor) (i : Bool)
    (nm : String) :
    (∀ e, v.automation i = Except.error e →
      launch_experiment sp v (some nm) i = (sp, [Msg.pyError e]))
    ∧ (∀ a e, v.automation i = Except.ok a →
        v.getExperiment a = Except.error e →
        launch_experiment sp v (some nm) i
          = ({ sp with auto := some a }, [Msg.pyError e]))
    ∧ (∀ a ex e, v.automation i = Except.ok a →
        v.getExperiment a = Except.ok ex → v.load ex nm = Except.error e →
        launch_experiment sp v (some nm) i
          = ({ sp with auto := some a, experiment := some ex },
             [Msg.pyError e]))
    ∧ (∀ a ex ex1, v.automation i = Except.ok a →
        v.getExperiment a = Except.ok ex → v.load ex nm = Except.ok ex1 →
        launch_experiment sp v (some nm) i
          = ({ sp with auto := some a, experiment := some ex1, experiment_name := some ex1.name },
             [Msg.launchSuccess (some ex1.name)])) := by
  refine ⟨fun e he => ?_, fun a e ha he => ?_, fun a ex e ha hg he => ?_,
    fun a ex ex1 ha hg hl => ?_⟩
  · simp [launch_experiment, he]
  · simp [launch_experiment, ha, he]
  · simp [launch_experiment, ha, hg, he]
  · simp [launch_experiment, ha, hg, hl]

/-- Witness for C7 with a vendor whose `Load` raises: the error is reported,
the session and the pre-load experiment handle are kept, and the stored
experiment name is untouched. -/
theorem launch_experiment_C7_witness :
    launch_experiment spW0 vendFail (some "run") true
      = ({ spW0 with auto := some 7, experiment := some exW },
         [Msg.pyError (PyErr.vendorError "load failed")]) :=
  (launch_experiment_C7 spW0 vendFail true "run").2.2.1 7 exW
    (PyErr.vendorError "load failed") rfl rfl rfl

/-- C4 (the code at the claim's input): `set_custom_ROI(0, 0, 512, 512)` does
construct the region with xBinning = 512 and yBinning = 512 (the binning
defaults), but the call then raises `AttributeError` at the `self.Experiment`
read, so the region is neither applied to the experiment nor returned. -/
theorem set_custom_ROI_C4 :
    set_custom_ROI spW 0 0 512 512
      = Except.error (PyErr.attributeError "Experiment")
    ∧ customRegion 0 0 512 512 none none = ⟨0, 0, 512, 512, 512, 512⟩ :=
  ⟨rfl, rfl⟩
